import Mathlib

/-!
Shallow embedding of `src/generate_style_document.py` (class
`StyleDocumentGenerator`): an incremental accumulation engine that reads
batches of JSON comment records, asks an external oracle (the `claude`
subprocess) for an analysis, merges or appends the result into an
accumulated style document, compacts the document when it exceeds a line
ceiling, and checkpoints progress after every batch.

Modelling choices, each tied to the source:
- Input file: a `List (Option Record)`; a line that parses as JSON becomes
  `some r`, a malformed line becomes `none` (JSON parsing itself is
  outside the engine, per the input abstraction).
- The external process invocation (`subprocess.Popen` + `communicate`) is
  an opaque function `Oracle : String → ProcOutcome`; `ProcOutcome`
  distinguishes launch failure, completion with a return code and output
  streams, and timeout expiry, which is exactly the case split inside
  `call_claude`.
- Python truthiness of an `Optional[str]` value (`if analysis:`,
  `if compacted:`) is `none` or `some ""` falsy, rendered via `Option.getD`.
- The shrink check `new_length >= original_length * 0.9` is embedded as
  the exact rational comparison `9 * original_length ≤ 10 * new_length`.
  For every document length `n` with `0.9 * n < 2^52`, the binary64
  computation `n * 0.9` rounds to a value whose order against every
  integer agrees with the exact value `0.9 * n` (the relative error of
  the rounded constant `0.9` is below half an ulp after the product, and
  `0.9 * n` is either an exact integer or at least `1/10` away from one),
  so the integer comparison in the source coincides with this one.
- The `while` loop in `run` is embedded with explicit fuel; fuel
  `input.length` is enough because each executed iteration advances the
  cursor by at least one and the loop guard is `current_line < total`.
  `runLoopI_fuel_irrel` proves the result does not depend on the fuel
  once it dominates the remaining line count.
-/

/-- One JSON comment record, restricted to the fields the engine reads
(`repository`, `created_at`, `comment_body`, `issue_number`,
`issue_title`); a missing field is `none`, matching `dict.get` defaults. -/
structure Record where
  repository : Option String
  created_at : Option String
  comment_body : Option String
  issue_number : Option String
  issue_title : Option String
deriving DecidableEq

/-- Outcome of one `subprocess` invocation of the oracle command. -/
inductive ProcOutcome where
  | launchFailure
  | completed (returncode : Int) (stdout : String) (stderr : String)
  | timedOut
deriving DecidableEq

/-- The external oracle: a deterministic map from the full prompt written
to stdin to the outcome of the process invocation. -/
abbrev Oracle := String → ProcOutcome

/-- In-memory mutable state of `StyleDocumentGenerator`
(`current_line`, `style_content`, `compaction_count`). -/
structure GenState where
  current_line : Nat
  style_content : String
  compaction_count : Nat
deriving DecidableEq

/-- Defaults assigned in `__init__`: line 0, empty document, 0 compactions. -/
def initState : GenState := GenState.mk 0 "" 0

/-- The persisted checkpoint written by `save_progress`. -/
structure Checkpoint where
  current_line : Nat
  style_content : String
  compaction_count : Nat
  timestamp : String
deriving DecidableEq

/-- State of the progress file at startup: missing, present but not
parseable as the expected JSON, or a valid checkpoint. -/
inductive ProgressFile where
  | absent
  | malformed (raw : String)
  | valid (c : Checkpoint)

/-- `save_progress`: the checkpoint is the full in-memory state plus a
timestamp. -/
def save_progress (s : GenState) (timestamp : String) : Checkpoint :=
  Checkpoint.mk s.current_line s.style_content s.compaction_count timestamp

/-- `load_progress`: overwrite the in-memory defaults from the file when
it exists and parses; on a missing file or any parse error the state is
left at the `__init__` defaults ("Starting fresh..."). -/
def load_progress : ProgressFile → GenState
  | ProgressFile.absent => initState
  | ProgressFile.malformed _ => initState
  | ProgressFile.valid c => GenState.mk c.current_line c.style_content c.compaction_count

/-- Loop body of `read_comment_batch`: walk the remaining lines with the
remaining capacity `batch_size - len(comments)`; stop when capacity is
exhausted (`len(comments) >= batch_size`), collect a parsed record, and
skip a malformed line without consuming capacity. -/
def collectBatch : List (Option Record) → Nat → List Record
  | [], _ => []
  | _ :: _, 0 => []
  | some c :: rest, k + 1 => c :: collectBatch rest k
  | none :: rest, k + 1 => collectBatch rest (k + 1)

/-- `read_comment_batch(start_line, batch_size)`: skip the first
`start_line` lines, then collect up to `batch_size` parseable records. -/
def read_comment_batch (input : List (Option Record)) (start_line batch_size : Nat) :
    List Record :=
  collectBatch (input.drop start_line) batch_size

/-- The `<system>` preamble prepended to every prompt in `call_claude`. -/
def full_prompt (prompt : String) : String :=
  "<system>\nYou are a document processing assistant. Your role is to process text content and return the requested output directly without any meta-commentary, explanations, or requests for permissions. \n\nWhen asked to update or merge documents, return only the final document content. Do not include phrases like \"I need permissions\", \"Would you like me to\", or any conversational responses.\n\nYou are running in an automated script that expects only the processed content as output.\n</system>\n\n"
    ++ prompt

/-- Python `str.strip()`: drop leading and trailing whitespace
characters (structurally recursive so that concrete runs evaluate). -/
def py_strip (s : String) : String :=
  String.mk (((s.data.dropWhile Char.isWhitespace).reverse.dropWhile
    Char.isWhitespace).reverse)

/-- The result-and-cleanup behavior of `call_claude` on one process
outcome: return code 0 yields the stripped stdout, a non-zero return code
yields `None`, a launch failure is caught by the generic handler and
yields `None`, and a timeout kills the process (second component `true`)
and yields `None`.  No case raises. -/
def call_claude_outcome : ProcOutcome → Option String × Bool
  | ProcOutcome.launchFailure => (none, false)
  | ProcOutcome.completed rc out _ =>
      if rc = 0 then (some (py_strip out), false) else (none, false)
  | ProcOutcome.timedOut => (none, true)

/-- `call_claude(prompt)`: wrap the prompt with the system preamble, run
the oracle process, and convert the outcome to `text | None`. -/
def call_claude (oracle : Oracle) (prompt : String) : Option String :=
  (call_claude_outcome (oracle (full_prompt prompt))).1

/-- The per-record template used by `analyze_comment_batch`. -/
def format_comment (c : Record) : String :=
  "Repository: " ++ c.repository.getD "unknown" ++ "\n"
    ++ "Date: " ++ c.created_at.getD "unknown" ++ "\n"
    ++ "Comment: " ++ c.comment_body.getD "" ++ "\n"
    ++ "Context: Issue #" ++ c.issue_number.getD "N/A" ++ " - " ++ c.issue_title.getD "N/A" ++ "\n"
    ++ "---"

/-- `comments_text`: the formatted records joined by newlines. -/
def comments_text (comments : List Record) : String :=
  String.intercalate "\n" (comments.map format_comment)

/-- The analysis prompt built in `analyze_comment_batch`. -/
def analysis_prompt (text : String) : String :=
  "Analyze these GitHub comments for writing style patterns. Focus on:\n1. Communication tone and approach\n2. Technical language preferences\n3. Problem-solving methodology\n4. Feedback and collaboration style\n5. Common phrases or expressions\n6. Code review patterns\n\nExtract concise style insights that would help an AI assistant write similar comments.\n\nComments to analyze:\n"
    ++ text
    ++ "\n\nProvide specific, actionable style guidelines based on these examples."

/-- The guided-merge prompt built in `update_style_document`. -/
def update_prompt (style_content new_analysis : String) : String :=
  "You are a content processor updating a GitHub comment style guide. You must output the complete updated document content directly.\n\nTASK: Return the complete updated style document content (just the content, no explanations or permission requests).\n\nREQUIREMENTS:\n1. Make the document MORE DETAILED than the existing one\n2. PRESERVE all existing insights, examples, and specific details\n3. ADD new insights from the new analysis to expand sections\n4. EXPAND existing points with additional examples and specifics\n5. The document should GROW in detail and comprehensiveness, never shrink\n6. Do NOT remove or simplify existing content - only enhance and expand it\n\nEXISTING STYLE DOCUMENT:\n"
    ++ style_content
    ++ "\n\nNEW ANALYSIS TO INTEGRATE:\n"
    ++ new_analysis
    ++ "\n\nOUTPUT ONLY the complete updated style document content (no meta-commentary, no permission requests, just the document content)."

/-- The compaction prompt built in `compact_style_document`. -/
def compact_prompt (style_content : String) : String :=
  "The following style document has grown too large. Please compact it while preserving all unique insights and patterns. \n\nGoals:\n1. Merge redundant or similar style points\n2. Consolidate examples while keeping the most representative ones\n3. Maintain the structure and readability\n4. Preserve all unique insights and edge cases\n5. Target around 3000-4000 lines to allow for continued growth\n\nCurrent style document:\n"
    ++ style_content
    ++ "\n\nPlease provide a compacted version that maintains all the essential style information."

/-- `analyze_comment_batch`: `None` for an empty batch, otherwise one
oracle call on the analysis prompt. -/
def analyze_comment_batch (oracle : Oracle) (comments : List Record) : Option String :=
  if comments = [] then none
  else call_claude oracle (analysis_prompt (comments_text comments))

/-- `update_style_document`: return the new analysis unchanged when the
document is empty, otherwise one oracle call on the guided-merge prompt. -/
def update_style_document (oracle : Oracle) (style_content new_analysis : String) :
    Option String :=
  if style_content = "" then some new_analysis
  else call_claude oracle (update_prompt style_content new_analysis)

/-- The merge result rendered as the string Python's truthiness test
sees: `None` and `""` are both falsy, so both render as `""`. -/
def updated_content (oracle : Oracle) (style_content new_analysis : String) : String :=
  (update_style_document oracle style_content new_analysis).getD ""

/-- `count_lines`: `len(text.split("\n")) if text else 0`.  Splitting a
non-empty string at every newline yields one more piece than there are
newline characters, so the count is embedded structurally as the number
of newline characters plus one. -/
def count_lines (text : String) : Nat :=
  if text = "" then 0 else text.data.count '\n' + 1

/-- The merge block of `run` (lines 250-272): skip a falsy analysis; a
first batch sets the document; otherwise run the guided merge and accept
its output only when it is truthy, non-empty after stripping, and at
least 90% of the prior length, falling back to appending the raw
analysis with a blank-line separator in every other case. -/
def merge_step (oracle : Oracle) (style_content : String) (analysis : Option String) :
    String :=
  if analysis.getD "" = "" then style_content
  else if style_content = "" then analysis.getD ""
  else if updated_content oracle style_content (analysis.getD "") ≠ ""
      ∧ 0 < (py_strip (updated_content oracle style_content (analysis.getD ""))).length then
    if 9 * style_content.length
        ≤ 10 * (updated_content oracle style_content (analysis.getD "")).length then
      updated_content oracle style_content (analysis.getD "")
    else style_content ++ "\n\n" ++ analysis.getD ""
  else style_content ++ "\n\n" ++ analysis.getD ""

/-- `compact_style_document`: no-op returning `False` on an empty
document; otherwise one oracle call on the compaction prompt; on a truthy
result replace the document and increment the compaction counter and
return `True`, else leave both unchanged and return `False`. -/
def compact_style_document (oracle : Oracle) (style_content : String)
    (compaction_count : Nat) : String × Nat × Bool :=
  if style_content = "" then (style_content, compaction_count, false)
  else if (call_claude oracle (compact_prompt style_content)).getD "" = "" then
    (style_content, compaction_count, false)
  else
    ((call_claude oracle (compact_prompt style_content)).getD "", compaction_count + 1, true)

/-- The document after the merge block of one iteration of `run`. -/
def merged_content (oracle : Oracle) (s : GenState) (batch : List Record) : String :=
  merge_step oracle s.style_content (analyze_comment_batch oracle batch)

/-- One iteration of the `while` loop of `run` on a non-empty batch:
merge, then compact exactly when the merged document has more than
`max_lines` lines, then advance the cursor by the batch length.  The
second component records whether the compaction branch was entered. -/
def batchIterateI (oracle : Oracle) (max_lines : Nat) (s : GenState)
    (batch : List Record) : GenState × Bool :=
  if max_lines < count_lines (merged_content oracle s batch) then
    (GenState.mk (s.current_line + batch.length)
      (compact_style_document oracle (merged_content oracle s batch) s.compaction_count).1
      (compact_style_document oracle (merged_content oracle s batch) s.compaction_count).2.1,
     true)
  else
    (GenState.mk (s.current_line + batch.length) (merged_content oracle s batch)
      s.compaction_count,
     false)

/-- One iteration of the `while` loop of `run`, state part. -/
def batchIterate (oracle : Oracle) (max_lines : Nat) (s : GenState)
    (batch : List Record) : GenState :=
  (batchIterateI oracle max_lines s batch).1

/-- The `while current_line < total_lines` loop of `run`, with explicit
fuel, also counting in the second component how many batch analyses were
performed.  The loop stops when the cursor reaches the total line count
or the batch comes back empty. -/
def runLoopI (oracle : Oracle) (input : List (Option Record)) (bs ml : Nat) :
    Nat → GenState → GenState × Nat
  | 0, s => (s, 0)
  | fuel + 1, s =>
    if s.current_line < input.length then
      if read_comment_batch input s.current_line bs = [] then (s, 0)
      else
        ((runLoopI oracle input bs ml fuel
            (batchIterate oracle ml s (read_comment_batch input s.current_line bs))).1,
         (runLoopI oracle input bs ml fuel
            (batchIterate oracle ml s (read_comment_batch input s.current_line bs))).2 + 1)
    else (s, 0)

/-- The loop of `run`, state part. -/
def runLoop (oracle : Oracle) (input : List (Option Record)) (bs ml fuel : Nat)
    (s : GenState) : GenState :=
  (runLoopI oracle input bs ml fuel s).1

/-- `run`: load the checkpoint (or default), then iterate to completion;
fuel `input.length` dominates the number of iterations. -/
def run (oracle : Oracle) (input : List (Option Record)) (bs ml : Nat)
    (pf : ProgressFile) : GenState :=
  runLoop oracle input bs ml input.length (load_progress pf)

/-- Exactly `n` leading iterations of the loop of `run` (fewer when the
loop stops earlier): the state at which an interruption after `n`
completed batches would checkpoint. -/
def iterN (oracle : Oracle) (input : List (Option Record)) (bs ml : Nat) :
    Nat → GenState → GenState
  | 0, s => s
  | n + 1, s =>
    if s.current_line < input.length then
      if read_comment_batch input s.current_line bs = [] then s
      else iterN oracle input bs ml n
        (batchIterate oracle ml s (read_comment_batch input s.current_line bs))
    else s

/-- The cursor always advances by the batch length in one iteration
(`self.current_line += len(batch)`), whatever the merge and compaction
outcomes. -/
theorem batchIterate_current_line (oracle : Oracle) (ml : Nat) (s : GenState)
    (batch : List Record) :
    (batchIterate oracle ml s batch).current_line = s.current_line + batch.length := by
  unfold batchIterate batchIterateI
  split <;> rfl

/-- `collectBatch` never returns more records than there are lines left. -/
theorem collectBatch_length_le (l : List (Option Record)) :
    ∀ k, (collectBatch l k).length ≤ l.length := by
  induction l with
  | nil => intro k; simp [collectBatch]
  | cons hd tl ih =>
    intro k
    cases k with
    | zero => simp [collectBatch]
    | succ k =>
      cases hd with
      | some c =>
        simpa [collectBatch] using Nat.succ_le_succ (ih k)
      | none =>
        simp only [collectBatch, List.length_cons]
        exact Nat.le_trans (ih (k + 1)) (Nat.le_succ _)

/-- A batch read at the cursor has at most `total - cursor` records. -/
theorem read_comment_batch_length_le (input : List (Option Record)) (c bs : Nat) :
    (read_comment_batch input c bs).length ≤ input.length - c := by
  unfold read_comment_batch
  calc (collectBatch (input.drop c) bs).length
      ≤ (input.drop c).length := collectBatch_length_le _ _
    _ = input.length - c := List.length_drop _ _

/-- The loop result is independent of the fuel once the fuel dominates
the number of unread lines. -/
theorem runLoopI_fuel_irrel (oracle : Oracle) (input : List (Option Record)) (bs ml : Nat) :
    ∀ f1 f2 : Nat, ∀ s : GenState,
      input.length - s.current_line ≤ f1 → input.length - s.current_line ≤ f2 →
      runLoopI oracle input bs ml f1 s = runLoopI oracle input bs ml f2 s := by
  intro f1
  induction f1 with
  | zero =>
    intro f2 s h1 h2
    have hg : ¬ s.current_line < input.length := by omega
    cases f2 with
    | zero => rfl
    | succ f2 =>
      simp only [runLoopI]
      rw [if_neg hg]
  | succ f1 ih =>
    intro f2 s h1 h2
    cases f2 with
    | zero =>
      have hg : ¬ s.current_line < input.length := by omega
      simp only [runLoopI]
      rw [if_neg hg]
    | succ f2 =>
      simp only [runLoopI]
      by_cases hg : s.current_line < input.length
      · rw [if_pos hg, if_pos hg]
        by_cases hb : read_comment_batch input s.current_line bs = []
        · rw [if_pos hb, if_pos hb]
        · rw [if_neg hb, if_neg hb]
          have hlen : 1 ≤ (read_comment_batch input s.current_line bs).length := by
            cases hE : read_comment_batch input s.current_line bs with
            | nil => exact absurd hE hb
            | cons x xs => simp
          have hcur := batchIterate_current_line oracle ml s
            (read_comment_batch input s.current_line bs)
          have hr1 : input.length
              - (batchIterate oracle ml s
                  (read_comment_batch input s.current_line bs)).current_line ≤ f1 := by
            omega
          have hr2 : input.length
              - (batchIterate oracle ml s
                  (read_comment_batch input s.current_line bs)).current_line ≤ f2 := by
            omega
          rw [ih f2 _ hr1 hr2]
      · rw [if_neg hg, if_neg hg]

/-- Unfolding one executed iteration of the full-fuel loop: when the
guard holds and the batch is non-empty, running from `s` equals running
from the state after one iteration. -/
theorem runLoop_step_eq (oracle : Oracle) (input : List (Option Record)) (bs ml : Nat)
    (s : GenState)
    (hg : s.current_line < input.length)
    (hb : read_comment_batch input s.current_line bs ≠ []) :
    runLoop oracle input bs ml input.length s
      = runLoop oracle input bs ml input.length
          (batchIterate oracle ml s (read_comment_batch input s.current_line bs)) := by
  obtain ⟨L, hL⟩ : ∃ L, input.length = L + 1 := ⟨input.length - 1, by omega⟩
  have hlen : 1 ≤ (read_comment_batch input s.current_line bs).length := by
    cases hE : read_comment_batch input s.current_line bs with
    | nil => exact absurd hE hb
    | cons x xs => simp
  have hcur := batchIterate_current_line oracle ml s
    (read_comment_batch input s.current_line bs)
  have step1 : runLoopI oracle input bs ml (L + 1) s
      = ((runLoopI oracle input bs ml L
            (batchIterate oracle ml s (read_comment_batch input s.current_line bs))).1,
         (runLoopI oracle input bs ml L
            (batchIterate oracle ml s (read_comment_batch input s.current_line bs))).2 + 1) := by
    simp only [runLoopI]
    rw [if_pos hg, if_neg hb]
  have hirrel : runLoopI oracle input bs ml L
        (batchIterate oracle ml s (read_comment_batch input s.current_line bs))
      = runLoopI oracle input bs ml (L + 1)
        (batchIterate oracle ml s (read_comment_batch input s.current_line bs)) := by
    apply runLoopI_fuel_irrel <;> omega
  unfold runLoop
  rw [hL, step1, hirrel]

/-- Running the loop to completion from the state after `n` completed
iterations gives the same final state as running from the start. -/
theorem runLoop_iterN_eq (oracle : Oracle) (input : List (Option Record)) (bs ml : Nat) :
    ∀ (n : Nat) (s : GenState),
      runLoop oracle input bs ml input.length (iterN oracle input bs ml n s)
        = runLoop oracle input bs ml input.length s := by
  intro n
  induction n with
  | zero => intro s; rfl
  | succ n ih =>
    intro s
    simp only [iterN]
    by_cases hg : s.current_line < input.length
    · rw [if_pos hg]
      by_cases hb : read_comment_batch input s.current_line bs = []
      · rw [if_pos hb]
      · rw [if_neg hb, ih, runLoop_step_eq oracle input bs ml s hg hb]
    · rw [if_neg hg]

/-- The cursor never exceeds the total line count along the iterations. -/
theorem iterN_cursor_le (oracle : Oracle) (input : List (Option Record)) (bs ml : Nat) :
    ∀ (n : Nat) (s : GenState), s.current_line ≤ input.length →
      (iterN oracle input bs ml n s).current_line ≤ input.length := by
  intro n
  induction n with
  | zero => intro s h; exact h
  | succ n ih =>
    intro s h
    simp only [iterN]
    by_cases hg : s.current_line < input.length
    · rw [if_pos hg]
      by_cases hb : read_comment_batch input s.current_line bs = []
      · rw [if_pos hb]; exact h
      · rw [if_neg hb]
        apply ih
        have hcur := batchIterate_current_line oracle ml s
          (read_comment_batch input s.current_line bs)
        have hbl := read_comment_batch_length_le input s.current_line bs
        omega
    · rw [if_neg hg]; exact h

/-- One-step unfolding of `iterN`. -/
theorem iterN_succ (oracle : Oracle) (input : List (Option Record)) (bs ml n : Nat)
    (s : GenState) :
    iterN oracle input bs ml (n + 1) s
      = if s.current_line < input.length then
          if read_comment_batch input s.current_line bs = [] then s
          else iterN oracle input bs ml n
            (batchIterate oracle ml s (read_comment_batch input s.current_line bs))
        else s := rfl

/-- The cursor after `n + 1` iterations is at least the cursor after `n`. -/
theorem iterN_cursor_mono (oracle : Oracle) (input : List (Option Record)) (bs ml : Nat) :
    ∀ (n : Nat) (s : GenState),
      (iterN oracle input bs ml n s).current_line
        ≤ (iterN oracle input bs ml (n + 1) s).current_line := by
  intro n
  induction n with
  | zero =>
    intro s
    have h0 : ∀ t : GenState, iterN oracle input bs ml 0 t = t := fun _ => rfl
    rw [iterN_succ, h0]
    by_cases hg : s.current_line < input.length
    · rw [if_pos hg]
      by_cases hb : read_comment_batch input s.current_line bs = []
      · rw [if_pos hb]
      · rw [if_neg hb, h0]
        have hcur := batchIterate_current_line oracle ml s
          (read_comment_batch input s.current_line bs)
        omega
    · rw [if_neg hg]
  | succ n ih =>
    intro s
    rw [iterN_succ oracle input bs ml n s, iterN_succ oracle input bs ml (n + 1) s]
    by_cases hg : s.current_line < input.length
    · rw [if_pos hg, if_pos hg]
      by_cases hb : read_comment_batch input s.current_line bs = []
      · rw [if_pos hb, if_pos hb]
      · rw [if_neg hb, if_neg hb]
        exact ih _
    · rw [if_neg hg, if_neg hg]

/-- The final cursor of the loop never exceeds the total line count. -/
theorem runLoopI_cursor_le (oracle : Oracle) (input : List (Option Record)) (bs ml : Nat) :
    ∀ (fuel : Nat) (s : GenState), s.current_line ≤ input.length →
      (runLoopI oracle input bs ml fuel s).1.current_line ≤ input.length := by
  intro fuel
  induction fuel with
  | zero => intro s h; exact h
  | succ fuel ih =>
    intro s h
    simp only [runLoopI]
    by_cases hg : s.current_line < input.length
    · rw [if_pos hg]
      by_cases hb : read_comment_batch input s.current_line bs = []
      · rw [if_pos hb]; exact h
      · rw [if_neg hb]
        have hcur := batchIterate_current_line oracle ml s
          (read_comment_batch input s.current_line bs)
        have hbl := read_comment_batch_length_le input s.current_line bs
        exact ih _ (by omega)
    · rw [if_neg hg]; exact h

/-- Claim C1: under the guided-merge strategy with a non-empty document
and a present analysis, a merged output shorter than 90% of the prior
document is discarded and the raw analysis is appended after a blank
line; a merged output that is non-empty after stripping and at least 90%
of the prior length becomes the new document. -/
theorem merge_ninety_percent_policy (oracle : Oracle) (doc a m : String)
    (hdoc : doc ≠ "") (ha : a ≠ "")
    (hm : update_style_document oracle doc a = some m) :
    (10 * m.length < 9 * doc.length →
      merge_step oracle doc (some a) = doc ++ "\n\n" ++ a)
    ∧ (0 < (py_strip m).length → 9 * doc.length ≤ 10 * m.length →
      merge_step oracle doc (some a) = m) := by
  have hu : updated_content oracle doc a = m := by
    unfold updated_content
    rw [hm]
    rfl
  unfold merge_step
  simp only [Option.getD_some]
  rw [if_neg ha, if_neg hdoc, hu]
  constructor
  · intro hlt
    by_cases hc : m ≠ "" ∧ 0 < (py_strip m).length
    · rw [if_pos hc, if_neg (by omega)]
    · rw [if_neg hc]
  · intro htrim hge
    have hne : m ≠ "" := by
      intro he
      rw [he] at htrim
      exact absurd htrim (by decide)
    rw [if_pos ⟨hne, htrim⟩, if_pos hge]

/-- Witness for C1: a 12-character document and a 5-character merged
output (below the 90% floor) fall back to appending the analysis. -/
theorem merge_ninety_percent_policy_witness :
    merge_step (fun _ => ProcOutcome.completed 0 "short" "") "0123456789ab" (some "A")
      = "0123456789ab" ++ "\n\n" ++ "A" :=
  (merge_ninety_percent_policy (fun _ => ProcOutcome.completed 0 "short" "")
    "0123456789ab" "A" "short" (by decide) (by decide) (by decide)).1 (by decide)

/-- Claim C5: an absent batch-analysis result leaves the document
unchanged by the merge step, and the cursor still advances by the batch
length at the end of the iteration. -/
theorem absent_analysis_is_noop (oracle : Oracle) (ml : Nat) (s : GenState)
    (batch : List Record)
    (h : analyze_comment_batch oracle batch = none) :
    merge_step oracle s.style_content (analyze_comment_batch oracle batch)
      = s.style_content
    ∧ (batchIterate oracle ml s batch).current_line = s.current_line + batch.length := by
  constructor
  · rw [h]
    simp [merge_step]
  · exact batchIterate_current_line oracle ml s batch

/-- Witness for C5: an oracle whose process fails to launch yields no
analysis; the document stays `"D"` and the cursor advances by 1. -/
theorem absent_analysis_is_noop_witness :
    merge_step (fun _ => ProcOutcome.launchFailure) (GenState.mk 7 "D" 2).style_content
        (analyze_comment_batch (fun _ => ProcOutcome.launchFailure)
          [Record.mk none none (some "hello") none none])
      = (GenState.mk 7 "D" 2).style_content
    ∧ (batchIterate (fun _ => ProcOutcome.launchFailure) 5000 (GenState.mk 7 "D" 2)
        [Record.mk none none (some "hello") none none]).current_line
      = (GenState.mk 7 "D" 2).current_line
        + ([Record.mk none none (some "hello") none none] : List Record).length :=
  absent_analysis_is_noop (fun _ => ProcOutcome.launchFailure) 5000 (GenState.mk 7 "D" 2)
    [Record.mk none none (some "hello") none none] (by decide)

/-- Claim C8: an empty or whitespace-only oracle response to a
guided-merge request on a non-empty document is treated as a failure and
the append fallback is used with the raw analysis text. -/
theorem empty_merge_response_falls_back (oracle : Oracle) (doc a out err : String)
    (hdoc : doc ≠ "") (ha : a ≠ "")
    (ho : oracle (full_prompt (update_prompt doc a)) = ProcOutcome.completed 0 out err)
    (hws : py_strip out = "") :
    merge_step oracle doc (some a) = doc ++ "\n\n" ++ a := by
  have hu : updated_content oracle doc a = "" := by
    unfold updated_content update_style_document call_claude
    rw [if_neg hdoc, ho]
    simp [call_claude_outcome, hws]
  unfold merge_step
  simp only [Option.getD_some]
  rw [if_neg ha, if_neg hdoc, hu]
  rw [if_neg (by simp)]

/-- Witness for C8: a whitespace-only stdout `" \n "` during the merge
leads to the append fallback. -/
theorem empty_merge_response_falls_back_witness :
    merge_step (fun _ => ProcOutcome.completed 0 " \n " "x") "DOC" (some "A")
      = "DOC" ++ "\n\n" ++ "A" :=
  empty_merge_response_falls_back (fun _ => ProcOutcome.completed 0 " \n " "x")
    "DOC" "A" " \n " "x" (by decide) (by decide) rfl (by decide)

/-- Claim C9: an oracle invocation returns a failure value instead of
raising on process launch failure, non-zero exit status, and timeout
expiry, and in the timeout case the in-flight process is killed before
returning. -/
theorem oracle_failure_returns_none (rc : Int) (out err : String) :
    call_claude_outcome ProcOutcome.launchFailure = (none, false)
    ∧ (rc ≠ 0 → call_claude_outcome (ProcOutcome.completed rc out err) = (none, false))
    ∧ call_claude_outcome ProcOutcome.timedOut = (none, true) := by
  refine ⟨rfl, ?_, rfl⟩
  intro h
  simp only [call_claude_outcome]
  rw [if_neg h]

/-- Witness for C9: exit status 1 yields `None` and no kill. -/
theorem oracle_failure_returns_none_witness :
    call_claude_outcome (ProcOutcome.completed 1 "boom" "err") = (none, false) :=
  (oracle_failure_returns_none 1 "boom" "err").2.1 (by decide)

/-- Claim C10: a progress file that exists but does not parse leaves the
state at the `__init__` defaults, and the run proceeds exactly as a run
with no progress file at all. -/
theorem malformed_progress_starts_fresh (raw : String) (oracle : Oracle)
    (input : List (Option Record)) (bs ml : Nat) :
    load_progress (ProgressFile.malformed raw) = initState
    ∧ run oracle input bs ml (ProgressFile.malformed raw)
      = run oracle input bs ml ProgressFile.absent :=
  ⟨rfl, rfl⟩

/-- Claim C2: for a fixed deterministic oracle and input, running from
the default initial state to completion yields the same final document
and cursor as interrupting after any number of completed batch
iterations, checkpointing, and resuming from the saved checkpoint. -/
theorem resumability_one_pass_eq_resume (oracle : Oracle) (input : List (Option Record))
    (bs ml n : Nat) (ts : String) :
    (runLoop oracle input bs ml input.length
        (load_progress (ProgressFile.valid
          (save_progress (iterN oracle input bs ml n initState) ts)))).style_content
      = (runLoop oracle input bs ml input.length initState).style_content
    ∧ (runLoop oracle input bs ml input.length
        (load_progress (ProgressFile.valid
          (save_progress (iterN oracle input bs ml n initState) ts)))).current_line
      = (runLoop oracle input bs ml input.length initState).current_line := by
  have hload : load_progress (ProgressFile.valid
      (save_progress (iterN oracle input bs ml n initState) ts))
      = iterN oracle input bs ml n initState := rfl
  rw [hload, runLoop_iterN_eq oracle input bs ml n initState]
  exact ⟨rfl, rfl⟩

/-- Claim C3: starting from the default initial state, the cursor is
non-decreasing across batch iterations and never exceeds the total line
count of the input, and the final cursor of a full run is also bounded
by the total line count. -/
theorem cursor_monotone_and_bounded (oracle : Oracle) (input : List (Option Record))
    (bs ml n : Nat) :
    (iterN oracle input bs ml n initState).current_line
      ≤ (iterN oracle input bs ml (n + 1) initState).current_line
    ∧ (iterN oracle input bs ml n initState).current_line ≤ input.length
    ∧ (runLoop oracle input bs ml input.length initState).current_line ≤ input.length :=
  ⟨iterN_cursor_mono oracle input bs ml n initState,
   iterN_cursor_le oracle input bs ml n initState (Nat.zero_le _),
   runLoopI_cursor_le oracle input bs ml input.length initState (Nat.zero_le _)⟩

/-- Claim C4: in one batch iteration, the compaction branch is entered
if and only if the merged document has strictly more lines than the
ceiling, and a successful compaction replaces the document by the
oracle's compacted output and increments the compaction count by exactly
one. -/
theorem compaction_gating_and_count (oracle : Oracle) (ml : Nat) (s : GenState)
    (batch : List Record) (mid c : String)
    (hmid : merged_content oracle s batch = mid) :
    ((batchIterateI oracle ml s batch).2 = true ↔ ml < count_lines mid)
    ∧ (ml < count_lines mid →
        call_claude oracle (compact_prompt mid) = some c → c ≠ "" →
        (batchIterate oracle ml s batch).style_content = c
        ∧ (batchIterate oracle ml s batch).compaction_count = s.compaction_count + 1) := by
  subst hmid
  constructor
  · constructor
    · intro h
      by_contra hn
      unfold batchIterateI at h
      rw [if_neg hn] at h
      simp at h
    · intro h
      unfold batchIterateI
      rw [if_pos h]
  · intro h hc hne
    have hmidne : merged_content oracle s batch ≠ "" := by
      intro he
      rw [he] at h
      have h0 : count_lines "" = 0 := rfl
      omega
    have hcomp : compact_style_document oracle (merged_content oracle s batch)
        s.compaction_count = (c, s.compaction_count + 1, true) := by
      unfold compact_style_document
      rw [if_neg hmidne, hc]
      simp [hne]
    unfold batchIterate batchIterateI
    rw [if_pos h, hcomp]
    exact ⟨rfl, rfl⟩

/-- Witness for C4: with ceiling 0 and an oracle answering `"C"`
everywhere, the first batch merges to a 1-line document, compaction is
invoked and succeeds, and the count becomes 1. -/
theorem compaction_gating_and_count_witness :
    ((batchIterateI (fun _ => ProcOutcome.completed 0 "C" "") 0 initState
        [Record.mk none none (some "hello") none none]).2 = true)
    ∧ (batchIterate (fun _ => ProcOutcome.completed 0 "C" "") 0 initState
        [Record.mk none none (some "hello") none none]).compaction_count
      = initState.compaction_count + 1 := by
  have h := compaction_gating_and_count (fun _ => ProcOutcome.completed 0 "C" "") 0
    initState [Record.mk none none (some "hello") none none] "C" "C" (by decide)
  exact ⟨h.1.mpr (by decide), (h.2 (by decide) (by decide) (by decide)).2⟩

/-- Claim C6: when the compaction oracle call fails, the document and
the compaction count are unchanged by the compaction step, and the run
continues with the next iteration rather than halting. -/
theorem compaction_failure_keeps_document (oracle : Oracle)
    (input : List (Option Record)) (bs ml : Nat) (s : GenState) (mid : String)
    (hg : s.current_line < input.length)
    (hb : read_comment_batch input s.current_line bs ≠ [])
    (hmid : merged_content oracle s (read_comment_batch input s.current_line bs) = mid)
    (hover : ml < count_lines mid)
    (hfail : call_claude oracle (compact_prompt mid) = none) :
    (batchIterate oracle ml s (read_comment_batch input s.current_line bs)).style_content
      = mid
    ∧ (batchIterate oracle ml s
        (read_comment_batch input s.current_line bs)).compaction_count
      = s.compaction_count
    ∧ runLoop oracle input bs ml input.length s
      = runLoop oracle input bs ml input.length
          (batchIterate oracle ml s (read_comment_batch input s.current_line bs)) := by
  have hmidne : mid ≠ "" := by
    intro he
    rw [he] at hover
    have h0 : count_lines "" = 0 := rfl
    omega
  have hcomp : compact_style_document oracle mid s.compaction_count
      = (mid, s.compaction_count, false) := by
    unfold compact_style_document
    rw [if_neg hmidne, hfail]
    simp
  have hiter : (batchIterate oracle ml s
        (read_comment_batch input s.current_line bs)).style_content = mid
      ∧ (batchIterate oracle ml s
          (read_comment_batch input s.current_line bs)).compaction_count
        = s.compaction_count := by
    unfold batchIterate batchIterateI
    rw [hmid, if_pos hover, hcomp]
    exact ⟨rfl, rfl⟩
  exact ⟨hiter.1, hiter.2, runLoop_step_eq oracle input bs ml s hg hb⟩

/-- Witness for C6: ceiling 0, an oracle that always fails to launch;
the merge leaves the 1-line document `"x"`, compaction is attempted and
fails, the state keeps document and count, and the loop proceeds. -/
theorem compaction_failure_keeps_document_witness :
    (batchIterate (fun _ => ProcOutcome.launchFailure) 0 (GenState.mk 0 "x" 0)
        (read_comment_batch [some (Record.mk none none (some "hello") none none)] 0 1)).style_content
      = "x"
    ∧ (batchIterate (fun _ => ProcOutcome.launchFailure) 0 (GenState.mk 0 "x" 0)
        (read_comment_batch [some (Record.mk none none (some "hello") none none)] 0 1)).compaction_count
      = (GenState.mk 0 "x" 0).compaction_count
    ∧ runLoop (fun _ => ProcOutcome.launchFailure)
        [some (Record.mk none none (some "hello") none none)] 1 0
        ([some (Record.mk none none (some "hello") none none)] : List (Option Record)).length
        (GenState.mk 0 "x" 0)
      = runLoop (fun _ => ProcOutcome.launchFailure)
          [some (Record.mk none none (some "hello") none none)] 1 0
          ([some (Record.mk none none (some "hello") none none)] : List (Option Record)).length
          (batchIterate (fun _ => ProcOutcome.launchFailure) 0 (GenState.mk 0 "x" 0)
            (read_comment_batch [some (Record.mk none none (some "hello") none none)] 0 1)) :=
  compaction_failure_keeps_document (fun _ => ProcOutcome.launchFailure)
    [some (Record.mk none none (some "hello") none none)] 1 0 (GenState.mk 0 "x" 0) "x"
    (by decide) (by decide) (by decide) (by decide) (by decide)

/-- First valid record of the C7 scenario input. -/
def rec1 : Record := Record.mk (some "octo/alpha") (some "2020-01-01") (some "first") (some "1") (some "A")

/-- Second valid record of the C7 scenario input. -/
def rec2 : Record := Record.mk (some "octo/beta") (some "2020-01-02") (some "second") (some "2") (some "B")

/-- Third valid record of the C7 scenario input. -/
def rec3 : Record := Record.mk (some "octo/gamma") (some "2020-01-03") (some "third") (some "3") (some "C")

/-- The C7 scenario input file: three parseable lines and one malformed
trailing line. -/
def scenarioInput : List (Option Record) := [some rec1, some rec2, some rec3, none]

/-- The C7 scenario oracle: every invocation completes with status 0 and
prints `STYLEDOC`. -/
def scenarioOracle : Oracle := fun _ => ProcOutcome.completed 0 "STYLEDOC" ""

/-- Claim C7: on an input of 3 valid records plus 1 malformed trailing
line with batch size 10 and empty initial state, one batch of the 3
records is read, exactly one analysis call is made, the cursor advances
by 3 (not 4), and the document becomes exactly the analysis text. -/
theorem scenario_three_valid_one_malformed :
    read_comment_batch scenarioInput 0 10 = [rec1, rec2, rec3]
    ∧ runLoopI scenarioOracle scenarioInput 10 5000 scenarioInput.length initState
      = (GenState.mk 3 "STYLEDOC" 0, 1)
    ∧ run scenarioOracle scenarioInput 10 5000 ProgressFile.absent
      = GenState.mk 3 "STYLEDOC" 0 := by
  refine ⟨rfl, ?_, ?_⟩ <;> decide
